import Mathlib

/-!
Verification of the transcoding utilities of the Bluetooth JNI layer
(packages/apps/Bluetooth, jni/):

* the 128-bit UUID codec of com_android_bluetooth_gatt.cpp
  (set_uuid, uuid_lsb, uuid_msb),
* the textual device-address codec of the same file
  (bd_addr_str_to_addr, jstr2bdaddr, bdaddr2newjstr),
* the scoped address-buffer helper of scoped_bt_addr.cpp (ScopedBtAddr).

Machine integers are modelled as Nat with explicit reductions modulo
powers of two exactly where the C types truncate (uint8_t stores,
the uint64_t shift in uuid_lsb and uuid_msb).
-/

namespace BtJni

/-! ## UuidCodec: set_uuid, uuid_lsb, uuid_msb -/

/-- Embedding of set_uuid (com_android_bluetooth_gatt.cpp, lines 48-55).
The C loop runs i = 0..7 and stores, into a 16-byte buffer,
uuid[i] = (uuid_lsb >> (8*i)) & 0xFF and uuid[i+8] = (uuid_msb >> (8*i)) & 0xFF.
The two jlong arguments are modelled by their unsigned 64-bit bit patterns;
the arithmetic shift followed by the mask 0xFF extracts the same byte as the
logical shift on the bit pattern does. -/
def set_uuid (uuid_msb uuid_lsb : Nat) : List Nat :=
  (List.range 8).foldl
    (fun uuid i =>
      (uuid.set i ((uuid_lsb >>> (8 * i)) &&& 0xFF)).set (i + 8)
        ((uuid_msb >>> (8 * i)) &&& 0xFF))
    (List.replicate 16 0)

/-- Embedding of uuid_lsb (com_android_bluetooth_gatt.cpp, lines 57-69):
for i = 7 down to 0, the uint64_t accumulator is shifted left by 8
(truncating modulo 2^64 as the C type does) and or-ed with byte uu[i]. -/
def uuid_lsb (uu : List Nat) : Nat :=
  [7, 6, 5, 4, 3, 2, 1, 0].foldl
    (fun lsb i => ((lsb <<< 8) % 2 ^ 64) ||| uu.getD i 0) 0

/-- Embedding of uuid_msb (com_android_bluetooth_gatt.cpp, lines 71-83):
same accumulation as uuid_lsb, over bytes uu[15] down to uu[8]. -/
def uuid_msb (uu : List Nat) : Nat :=
  [15, 14, 13, 12, 11, 10, 9, 8].foldl
    (fun msb i => ((msb <<< 8) % 2 ^ 64) ||| uu.getD i 0) 0

/-- The buffer written by set_uuid, as an explicit 16-entry list. -/
theorem set_uuid_eq (msb lsb : Nat) :
    set_uuid msb lsb =
      [(lsb >>> (8 * 0)) &&& 0xFF, (lsb >>> (8 * 1)) &&& 0xFF,
       (lsb >>> (8 * 2)) &&& 0xFF, (lsb >>> (8 * 3)) &&& 0xFF,
       (lsb >>> (8 * 4)) &&& 0xFF, (lsb >>> (8 * 5)) &&& 0xFF,
       (lsb >>> (8 * 6)) &&& 0xFF, (lsb >>> (8 * 7)) &&& 0xFF,
       (msb >>> (8 * 0)) &&& 0xFF, (msb >>> (8 * 1)) &&& 0xFF,
       (msb >>> (8 * 2)) &&& 0xFF, (msb >>> (8 * 3)) &&& 0xFF,
       (msb >>> (8 * 4)) &&& 0xFF, (msb >>> (8 * 5)) &&& 0xFF,
       (msb >>> (8 * 6)) &&& 0xFF, (msb >>> (8 * 7)) &&& 0xFF] := rfl

/-- One accumulation step of uuid_lsb / uuid_msb, rewritten arithmetically:
when the accumulator is below 2^56 the uint64_t shift does not wrap, and the
or with a byte below 256 is plain addition. -/
theorem shift_or_step (acc b : Nat) (ha : acc < 2 ^ 56) (hb : b < 256) :
    ((acc <<< 8) % 2 ^ 64) ||| b = acc * 256 + b := by
  rw [Nat.shiftLeft_eq]
  have h64 : acc * 2 ^ 8 < 2 ^ 64 := by
    calc acc * 2 ^ 8 < 2 ^ 56 * 2 ^ 8 := by
          exact Nat.mul_lt_mul_of_lt_of_le ha (Nat.le_refl _) (by norm_num)
      _ = 2 ^ 64 := by norm_num
  rw [Nat.mod_eq_of_lt h64]
  have hor := Nat.mul_add_lt_is_or (show b < 2 ^ 8 by omega) acc
  calc acc * 2 ^ 8 ||| b = 2 ^ 8 * acc ||| b := by ring_nf
    _ = 2 ^ 8 * acc + b := (hor).symm
    _ = acc * 256 + b := by ring

/-- Masking with 0xFF is reduction modulo 256. -/
theorem and_255_eq_mod (x : Nat) : x &&& 0xFF = x % 256 := by
  have h := Nat.and_pow_two_sub_one_eq_mod x 8
  norm_num at h
  exact h

/-- C1: for every pair (msb, lsb) of 64-bit values, unpacking the 16-byte
buffer written by set_uuid — computing uuid_msb and uuid_lsb of it — returns
exactly (msb, lsb). -/
theorem claim_C1_uuid_roundtrip (msb lsb : Nat) (hm : msb < 2 ^ 64) (hl : lsb < 2 ^ 64) :
    uuid_lsb (set_uuid msb lsb) = lsb ∧ uuid_msb (set_uuid msb lsb) = msb := by
  rw [set_uuid_eq]
  have hb : ∀ x : Nat, ∀ k : Nat, (x >>> k) &&& 0xFF = x / 2 ^ k % 256 := by
    intro x k
    rw [and_255_eq_mod, Nat.shiftRight_eq_div_pow]
  have hlt : ∀ x k : Nat, x / 2 ^ k % 256 < 256 := fun x k => Nat.mod_lt _ (by norm_num)
  constructor
  · show uuid_lsb _ = lsb
    simp only [uuid_lsb, List.foldl, List.getD, List.get?, Option.getD,
      List.getElem?_cons_zero, List.getElem?_cons_succ]
    simp only [hb]
    rw [shift_or_step 0 _ (by norm_num) (hlt lsb 56)]
    rw [shift_or_step _ _ (by have := hlt lsb 56; omega) (hlt lsb 48)]
    rw [shift_or_step _ _ (by have := hlt lsb 56; have := hlt lsb 48; omega) (hlt lsb 40)]
    rw [shift_or_step _ _
      (by have := hlt lsb 56; have := hlt lsb 48; have := hlt lsb 40; omega) (hlt lsb 32)]
    rw [shift_or_step _ _
      (by have := hlt lsb 56; have := hlt lsb 48; have := hlt lsb 40;
          have := hlt lsb 32; omega) (hlt lsb 24)]
    rw [shift_or_step _ _
      (by have := hlt lsb 56; have := hlt lsb 48; have := hlt lsb 40;
          have := hlt lsb 32; have := hlt lsb 24; omega) (hlt lsb 16)]
    rw [shift_or_step _ _
      (by have := hlt lsb 56; have := hlt lsb 48; have := hlt lsb 40;
          have := hlt lsb 32; have := hlt lsb 24; have := hlt lsb 16; omega) (hlt lsb 8)]
    rw [shift_or_step _ _
      (by have := hlt lsb 56; have := hlt lsb 48; have := hlt lsb 40;
          have := hlt lsb 32; have := hlt lsb 24; have := hlt lsb 16;
          have := hlt lsb 8; omega) (hlt lsb 0)]
    norm_num
    omega
  · show uuid_msb _ = msb
    simp only [uuid_msb, List.foldl, List.getD, List.get?, Option.getD,
      List.getElem?_cons_zero, List.getElem?_cons_succ]
    simp only [hb]
    rw [shift_or_step 0 _ (by norm_num) (hlt msb 56)]
    rw [shift_or_step _ _ (by have := hlt msb 56; omega) (hlt msb 48)]
    rw [shift_or_step _ _ (by have := hlt msb 56; have := hlt msb 48; omega) (hlt msb 40)]
    rw [shift_or_step _ _
      (by have := hlt msb 56; have := hlt msb 48; have := hlt msb 40; omega) (hlt msb 32)]
    rw [shift_or_step _ _
      (by have := hlt msb 56; have := hlt msb 48; have := hlt msb 40;
          have := hlt msb 32; omega) (hlt msb 24)]
    rw [shift_or_step _ _
      (by have := hlt msb 56; have := hlt msb 48; have := hlt msb 40;
          have := hlt msb 32; have := hlt msb 24; omega) (hlt msb 16)]
    rw [shift_or_step _ _
      (by have := hlt msb 56; have := hlt msb 48; have := hlt msb 40;
          have := hlt msb 32; have := hlt msb 24; have := hlt msb 16; omega) (hlt msb 8)]
    rw [shift_or_step _ _
      (by have := hlt msb 56; have := hlt msb 48; have := hlt msb 40;
          have := hlt msb 32; have := hlt msb 24; have := hlt msb 16;
          have := hlt msb 8; omega) (hlt msb 0)]
    norm_num
    omega

/-- Witness for C1 at the concrete pair named by the claim:
msb = 0x0000000000001000, lsb = 0x80000800000010 (the Bluetooth base UUID
suffix) round-trips exactly. -/
theorem claim_C1_witness :
    (0x0000000000001000 < 2 ^ 64 ∧ 0x80000800000010 < 2 ^ 64) ∧
      (uuid_lsb (set_uuid 0x0000000000001000 0x80000800000010) = 0x80000800000010 ∧
       uuid_msb (set_uuid 0x0000000000001000 0x80000800000010) = 0x0000000000001000) :=
  ⟨by norm_num,
   claim_C1_uuid_roundtrip 0x0000000000001000 0x80000800000010 (by norm_num) (by norm_num)⟩

/-- C4: for every pair (msb, lsb) of 64-bit values and every i in [0,7],
byte i of the buffer produced by set_uuid equals (lsb >> (8*i)) & 0xFF and
byte i+8 equals (msb >> (8*i)) & 0xFF. -/
theorem claim_C4_set_uuid_bytes (msb lsb i : Nat) (hi : i < 8) :
    (set_uuid msb lsb).getD i 0 = (lsb >>> (8 * i)) &&& 0xFF ∧
    (set_uuid msb lsb).getD (i + 8) 0 = (msb >>> (8 * i)) &&& 0xFF := by
  rw [set_uuid_eq]
  interval_cases i <;> exact ⟨rfl, rfl⟩

/-- Witness for C4 at msb = 0xDEAD, lsb = 0xBEEF, i = 1. -/
theorem claim_C4_witness :
    (1 < 8) ∧
      ((set_uuid 0xDEAD 0xBEEF).getD 1 0 = (0xBEEF >>> (8 * 1)) &&& 0xFF ∧
       (set_uuid 0xDEAD 0xBEEF).getD (1 + 8) 0 = (0xDEAD >>> (8 * 1)) &&& 0xFF) :=
  ⟨by decide, claim_C4_set_uuid_bytes 0xDEAD 0xBEEF 1 (by decide)⟩

/-! ## AddressCodec: bd_addr_str_to_addr, jstr2bdaddr, bdaddr2newjstr -/

/-- Truncation of an int expression on store into a uint8_t cell:
the stored byte is the value modulo 256 (two's-complement low byte for
negative values, which Int.emod by 256 reproduces). -/
def u8ofInt (x : Int) : Nat := (x % 256).toNat

/-- The nibble computed by the digit cascade of bd_addr_str_to_addr
(com_android_bluetooth_gatt.cpp, lines 93-98 and 104-109): a decimal digit
maps through c - '0', a char in 'a'..'z' through c - 'a' + 10, and anything
else through the unchecked c - 'A' + 10, truncated by the uint8_t store. -/
def nibble (c : Char) : Nat :=
  if '0' ≤ c ∧ c ≤ '9' then u8ofInt ((c.toNat : Int) - ('0'.toNat : Int))
  else if 'a' ≤ c ∧ c ≤ 'z' then u8ofInt ((c.toNat : Int) - ('a'.toNat : Int) + 10)
  else u8ofInt ((c.toNat : Int) - ('A'.toNat : Int) + 10)

/-- Reading byte i of the NUL-terminated C buffer holding the characters of s:
the characters themselves for i below the length, the NUL terminator at
i = length, and — for reads past the terminator, which are out of range for
the buffer — the model returns NUL as well. -/
def cstrGet (s : List Char) (i : Nat) : Char := s.getD i (Char.ofNat 0)

/-- Cursor state of bd_addr_str_to_addr: position of the next read, the
character variable c, the bytes written to bd_addr so far, and the list of
buffer indices read so far (instrumentation for the safety claim). -/
structure PState where
  pos : Nat
  c : Char
  acc : List Nat
  reads : List Nat
deriving Repr, DecidableEq

/-- One execution of c = *str++ on the model state. -/
def readChar (s : List Char) (st : PState) : PState :=
  { st with c := cstrGet s st.pos, pos := st.pos + 1, reads := st.reads ++ [st.pos] }

/-- One iteration of the for loop of bd_addr_str_to_addr
(com_android_bluetooth_gatt.cpp, lines 91-115): parse the high nibble from c,
read the next character; when it is not a colon, shift the stored byte left by
four (a uint8_t store, hence modulo 256), or in the low nibble and read once
more; finally read the character that starts the next group. -/
def octetStep (s : List Char) (st : PState) : PState :=
  let hi := nibble st.c
  let st1 := readChar s st
  if st1.c ≠ ':' then
    let b := ((hi <<< 4) % 256) ||| nibble st1.c
    let st3 := readChar s (readChar s st1)
    { st3 with acc := st3.acc ++ [b] }
  else
    let st2 := readChar s st1
    { st2 with acc := st2.acc ++ [hi] }

/-- Embedding of bd_addr_str_to_addr (com_android_bluetooth_gatt.cpp, lines
85-116): an initial read of c followed by six loop iterations. Returns the
six bytes written to bd_addr together with the list of buffer indices read. -/
def bd_addr_str_to_addr (s : List Char) : List Nat × List Nat :=
  let st0 := readChar s ⟨0, Char.ofNat 0, [], []⟩
  let st := octetStep s (octetStep s (octetStep s
    (octetStep s (octetStep s (octetStep s st0)))))
  (st.acc, st.reads)

/-- Error taxonomy of the spec for the address codec. -/
inductive AddrError where
  | malformedAddress
deriving Repr, DecidableEq

/-- Embedding of jstr2bdaddr (com_android_bluetooth_gatt.cpp, lines 118-126):
when the string has length 17 the destination buffer is overwritten with the
parsed bytes, otherwise the function returns with the buffer untouched. The
second component models what the function surfaces to its caller: the C
function returns void and reports nothing on either path, so it is none on
every path. -/
def jstr2bdaddr (s : List Char) (bda : List Nat) : List Nat × Option AddrError :=
  if s.length = 17 then ((bd_addr_str_to_addr s).1, none) else (bda, none)

/-- The uppercase hex digit printed by the %X conversion for a value
below 16. -/
def hexUpper (n : Nat) : Char :=
  if n < 10 then Char.ofNat ('0'.toNat + n) else Char.ofNat ('A'.toNat + n - 10)

/-- The two characters printed by the %02X conversion of a byte value
(below 256, as every uint8_t argument is). -/
def byte2hex (b : Nat) : List Char := [hexUpper (b / 16), hexUpper (b % 16)]

/-- Embedding of bdaddr2newjstr (com_android_bluetooth_gatt.cpp, lines
128-135): snprintf of the six address bytes with the format
%02X:%02X:%02X:%02X:%02X:%02X. -/
def bdaddr2newjstr (b : List Nat) : List Char :=
  byte2hex (b.getD 0 0) ++ [':'] ++ byte2hex (b.getD 1 0) ++ [':'] ++
  byte2hex (b.getD 2 0) ++ [':'] ++ byte2hex (b.getD 3 0) ++ [':'] ++
  byte2hex (b.getD 4 0) ++ [':'] ++ byte2hex (b.getD 5 0)

/-- The hexadecimal digit characters accepted at the digit positions of a
well-formed address string: the ten decimal digits and the six letters of
either case, built from their codepoint ranges. -/
def hexChars : List Char :=
  (List.range 10).map (fun n => Char.ofNat ('0'.toNat + n)) ++
  (List.range 6).map (fun n => Char.ofNat ('a'.toNat + n)) ++
  (List.range 6).map (fun n => Char.ofNat ('A'.toNat + n))

/-- The characters the %02X conversion can produce. -/
def upperHexChars : List Char :=
  (List.range 10).map (fun n => Char.ofNat ('0'.toNat + n)) ++
  (List.range 6).map (fun n => Char.ofNat ('A'.toNat + n))

/-- Modelled from the spec: normalize uppercases the hex digits of the text
form, leaving decimal digits, uppercase digits and separators unchanged. -/
def normalizeChar (c : Char) : Char :=
  if 'a' ≤ c ∧ c ≤ 'f' then Char.ofNat (c.toNat - 32) else c

example :
    (bd_addr_str_to_addr ("AA:BB:CC:DD:EE:FF".toList)).1 =
      [0xAA, 0xBB, 0xCC, 0xDD, 0xEE, 0xFF] := by decide

example :
    (bd_addr_str_to_addr ("AA:BB:CC:DD:EE:FF".toList)).2 =
      [0, 1, 2, 3, 4, 5, 6, 7, 8, 9, 10, 11, 12, 13, 14, 15, 16, 17, 18] := by decide

example :
    bdaddr2newjstr [0xAA, 0xBB, 0xCC, 0xDD, 0xEE, 0xFF] =
      "AA:BB:CC:DD:EE:FF".toList := by decide

example :
    bdaddr2newjstr ((bd_addr_str_to_addr ("a1:b2:c3:d4:e5:f6".toList)).1) =
      ("a1:b2:c3:d4:e5:f6".toList).map normalizeChar := by decide

/-- No hexadecimal digit is the separator. -/
theorem hex_ne_colon : ∀ c ∈ hexChars, c ≠ ':' := by decide

/-- Evaluation of the parser on a well-formed 17-character address string
(separators at positions 2, 5, 8, 11 and 14, hex digits elsewhere): every
loop iteration takes the two-digit branch, each output byte combines the two
nibbles of its group, and the reads cover exactly the indices 0 through 18. -/
theorem parse_wf_eval (d0 d1 d2 d3 d4 d5 d6 d7 d8 d9 d10 d11 : Char)
    (h1 : d1 ∈ hexChars) (h3 : d3 ∈ hexChars) (h5 : d5 ∈ hexChars)
    (h7 : d7 ∈ hexChars) (h9 : d9 ∈ hexChars) (h11 : d11 ∈ hexChars) :
    bd_addr_str_to_addr
      [d0, d1, ':', d2, d3, ':', d4, d5, ':', d6, d7, ':', d8, d9, ':', d10, d11] =
      ([((nibble d0 <<< 4) % 256) ||| nibble d1,
        ((nibble d2 <<< 4) % 256) ||| nibble d3,
        ((nibble d4 <<< 4) % 256) ||| nibble d5,
        ((nibble d6 <<< 4) % 256) ||| nibble d7,
        ((nibble d8 <<< 4) % 256) ||| nibble d9,
        ((nibble d10 <<< 4) % 256) ||| nibble d11],
       [0, 1, 2, 3, 4, 5, 6, 7, 8, 9, 10, 11, 12, 13, 14, 15, 16, 17, 18]) := by
  have n1 := hex_ne_colon d1 h1
  have n3 := hex_ne_colon d3 h3
  have n5 := hex_ne_colon d5 h5
  have n7 := hex_ne_colon d7 h7
  have n9 := hex_ne_colon d9 h9
  have n11 := hex_ne_colon d11 h11
  simp [bd_addr_str_to_addr, octetStep, readChar, cstrGet, List.getD,
    n1, n3, n5, n7, n9, n11]

/-- Per-octet round trip: formatting with %02X the byte parsed from two hex
digit characters prints the same two digits, uppercased. -/
theorem octet_roundtrip : ∀ hi ∈ hexChars, ∀ lo ∈ hexChars,
    byte2hex (((nibble hi <<< 4) % 256) ||| nibble lo) =
      [normalizeChar hi, normalizeChar lo] := by decide

/-- C2: for every well-formed 17-character address string (hex digits with
separators at positions 2, 5, 8, 11 and 14), formatting the 6-byte address
obtained by parsing it yields the same string with its hex digits
uppercased. -/
theorem claim_C2_parse_format_roundtrip
    (d0 d1 d2 d3 d4 d5 d6 d7 d8 d9 d10 d11 : Char)
    (h0 : d0 ∈ hexChars) (h1 : d1 ∈ hexChars) (h2 : d2 ∈ hexChars)
    (h3 : d3 ∈ hexChars) (h4 : d4 ∈ hexChars) (h5 : d5 ∈ hexChars)
    (h6 : d6 ∈ hexChars) (h7 : d7 ∈ hexChars) (h8 : d8 ∈ hexChars)
    (h9 : d9 ∈ hexChars) (h10 : d10 ∈ hexChars) (h11 : d11 ∈ hexChars) :
    bdaddr2newjstr
      ((bd_addr_str_to_addr
        [d0, d1, ':', d2, d3, ':', d4, d5, ':', d6, d7, ':', d8, d9, ':', d10, d11]).1) =
      ([d0, d1, ':', d2, d3, ':', d4, d5, ':', d6, d7, ':',
        d8, d9, ':', d10, d11]).map normalizeChar := by
  rw [parse_wf_eval d0 d1 d2 d3 d4 d5 d6 d7 d8 d9 d10 d11 h1 h3 h5 h7 h9 h11]
  have e0 := octet_roundtrip d0 h0 d1 h1
  have e1 := octet_roundtrip d2 h2 d3 h3
  have e2 := octet_roundtrip d4 h4 d5 h5
  have e3 := octet_roundtrip d6 h6 d7 h7
  have e4 := octet_roundtrip d8 h8 d9 h9
  have e5 := octet_roundtrip d10 h10 d11 h11
  have ncolon : normalizeChar ':' = ':' := by decide
  simp [bdaddr2newjstr, List.getD, e0, e1, e2, e3, e4, e5, ncolon]

/-- Witness for C2 at the well-formed lowercase string 1a:2b:3c:4d:5e:6f. -/
theorem claim_C2_witness :
    ('1' ∈ hexChars ∧ 'a' ∈ hexChars ∧ '2' ∈ hexChars ∧ 'b' ∈ hexChars ∧
     '3' ∈ hexChars ∧ 'c' ∈ hexChars ∧ '4' ∈ hexChars ∧ 'd' ∈ hexChars ∧
     '5' ∈ hexChars ∧ 'e' ∈ hexChars ∧ '6' ∈ hexChars ∧ 'f' ∈ hexChars) ∧
    bdaddr2newjstr
      ((bd_addr_str_to_addr
        ['1', 'a', ':', '2', 'b', ':', '3', 'c', ':', '4', 'd', ':',
         '5', 'e', ':', '6', 'f']).1) =
      (['1', 'a', ':', '2', 'b', ':', '3', 'c', ':', '4', 'd', ':',
        '5', 'e', ':', '6', 'f']).map normalizeChar :=
  ⟨by decide,
   claim_C2_parse_format_roundtrip '1' 'a' '2' 'b' '3' 'c' '4' 'd' '5' 'e' '6' 'f'
     (by decide) (by decide) (by decide) (by decide) (by decide) (by decide)
     (by decide) (by decide) (by decide) (by decide) (by decide) (by decide)⟩

/-- Counterexample for C3: on the 5-character input short, jstr2bdaddr
surfaces no error at all to its caller — the claim that a length mismatch
produces an explicit MalformedAddress failure is false of the code. -/
theorem claim_C3_counterexample :
    ¬ (∀ (s : List Char) (bda : List Nat), s.length ≠ 17 →
        (jstr2bdaddr s bda).2 = some AddrError.malformedAddress) := by
  intro h
  exact absurd (h ("short".toList) [0, 0, 0, 0, 0, 0] (by decide)) (by decide)

/-- C3 amended: for every input string whose length differs from 17, the
parse performs no write — the destination buffer is returned unchanged — and
no error value is surfaced to the immediate caller: the length failure is
silently absorbed. -/
theorem claim_C3_length_guard (s : List Char) (bda : List Nat)
    (h : s.length ≠ 17) : jstr2bdaddr s bda = (bda, none) := by
  simp [jstr2bdaddr, h]

/-- Witness for the amended C3 at the 5-character input short. -/
theorem claim_C3_witness :
    ("short".toList).length ≠ 17 ∧
      jstr2bdaddr ("short".toList) [0, 0, 0, 0, 0, 0] = ([0, 0, 0, 0, 0, 0], none) :=
  ⟨by decide, claim_C3_length_guard ("short".toList) [0, 0, 0, 0, 0, 0] (by decide)⟩

/-- The %X conversion of a value below 16 prints an uppercase hex digit. -/
theorem hexUpper_mem : ∀ n < 16, hexUpper n ∈ upperHexChars := by decide

/-- C9: formatting a 6-byte device address always succeeds with exactly 17
characters — colons at the positions congruent to 2 modulo 3 and uppercase
hex digits elsewhere — and the concrete pair of examples of the spec holds:
formatting AA BB CC DD EE FF prints AA:BB:CC:DD:EE:FF, and parsing that
string returns those bytes. -/
theorem claim_C9_format_shape (b0 b1 b2 b3 b4 b5 : Nat)
    (g0 : b0 < 256) (g1 : b1 < 256) (g2 : b2 < 256)
    (g3 : b3 < 256) (g4 : b4 < 256) (g5 : b5 < 256) :
    (bdaddr2newjstr [b0, b1, b2, b3, b4, b5]).length = 17 ∧
    (∀ i < 17,
      if i % 3 = 2 then (bdaddr2newjstr [b0, b1, b2, b3, b4, b5]).getD i ' ' = ':'
      else (bdaddr2newjstr [b0, b1, b2, b3, b4, b5]).getD i ' ' ∈ upperHexChars) ∧
    bdaddr2newjstr [0xAA, 0xBB, 0xCC, 0xDD, 0xEE, 0xFF] = "AA:BB:CC:DD:EE:FF".toList ∧
    (bd_addr_str_to_addr ("AA:BB:CC:DD:EE:FF".toList)).1 =
      [0xAA, 0xBB, 0xCC, 0xDD, 0xEE, 0xFF] := by
  refine ⟨?_, ?_, by decide, by decide⟩
  · simp [bdaddr2newjstr, byte2hex, List.getD]
  · intro i hi
    interval_cases i <;>
      simp [bdaddr2newjstr, byte2hex, List.getD] <;>
      exact hexUpper_mem _ (by omega)

/-- Witness for C9 at the address bytes 00 1B 44 11 3A B7. -/
theorem claim_C9_witness :
    (0x00 < 256 ∧ 0x1B < 256 ∧ 0x44 < 256 ∧ 0x11 < 256 ∧ 0x3A < 256 ∧ 0xB7 < 256) ∧
    ((bdaddr2newjstr [0x00, 0x1B, 0x44, 0x11, 0x3A, 0xB7]).length = 17 ∧
    (∀ i < 17,
      if i % 3 = 2 then
        (bdaddr2newjstr [0x00, 0x1B, 0x44, 0x11, 0x3A, 0xB7]).getD i ' ' = ':'
      else (bdaddr2newjstr [0x00, 0x1B, 0x44, 0x11, 0x3A, 0xB7]).getD i ' ' ∈ upperHexChars) ∧
    bdaddr2newjstr [0xAA, 0xBB, 0xCC, 0xDD, 0xEE, 0xFF] = "AA:BB:CC:DD:EE:FF".toList ∧
    (bd_addr_str_to_addr ("AA:BB:CC:DD:EE:FF".toList)).1 =
      [0xAA, 0xBB, 0xCC, 0xDD, 0xEE, 0xFF]) :=
  ⟨by decide,
   claim_C9_format_shape 0x00 0x1B 0x44 0x11 0x3A 0xB7
     (by decide) (by decide) (by decide) (by decide) (by decide) (by decide)⟩

/-- Counterexample for C10: on the well-formed input AA:BB:CC:DD:EE:FF the
parse loop reads buffer index 18 — one position past the NUL terminator of
the 17-character string — so the accesses are not confined to indices 0
through 17. -/
theorem claim_C10_counterexample :
    18 ∈ (bd_addr_str_to_addr ("AA:BB:CC:DD:EE:FF".toList)).2 ∧
    ¬ (∀ i ∈ (bd_addr_str_to_addr ("AA:BB:CC:DD:EE:FF".toList)).2, i ≤ 17) := by
  decide

/-- C10 amended: on every well-formed 17-character address string the parse
loop reads exactly the buffer indices 0 through 18 in order: the 17
characters, the NUL terminator at index 17, and one final discarded read at
index 18, one position past the terminator. -/
theorem claim_C10_reads_bound (d0 d1 d2 d3 d4 d5 d6 d7 d8 d9 d10 d11 : Char)
    (h0 : d0 ∈ hexChars) (h1 : d1 ∈ hexChars) (h2 : d2 ∈ hexChars)
    (h3 : d3 ∈ hexChars) (h4 : d4 ∈ hexChars) (h5 : d5 ∈ hexChars)
    (h6 : d6 ∈ hexChars) (h7 : d7 ∈ hexChars) (h8 : d8 ∈ hexChars)
    (h9 : d9 ∈ hexChars) (h10 : d10 ∈ hexChars) (h11 : d11 ∈ hexChars) :
    (bd_addr_str_to_addr
      [d0, d1, ':', d2, d3, ':', d4, d5, ':', d6, d7, ':', d8, d9, ':', d10, d11]).2 =
      [0, 1, 2, 3, 4, 5, 6, 7, 8, 9, 10, 11, 12, 13, 14, 15, 16, 17, 18] ∧
    ∀ i ∈ (bd_addr_str_to_addr
      [d0, d1, ':', d2, d3, ':', d4, d5, ':', d6, d7, ':', d8, d9, ':', d10, d11]).2,
      i ≤ 18 := by
  have hp := parse_wf_eval d0 d1 d2 d3 d4 d5 d6 d7 d8 d9 d10 d11 h1 h3 h5 h7 h9 h11
  rw [hp]
  refine ⟨rfl, ?_⟩
  show ∀ i ∈ ([0, 1, 2, 3, 4, 5, 6, 7, 8, 9, 10,
    11, 12, 13, 14, 15, 16, 17, 18] : List Nat), i ≤ 18
  decide

/-- Witness for the amended C10 at the string 1a:2b:3c:4d:5e:6f. -/
theorem claim_C10_witness :
    ('1' ∈ hexChars ∧ 'a' ∈ hexChars ∧ '2' ∈ hexChars ∧ 'b' ∈ hexChars ∧
     '3' ∈ hexChars ∧ 'c' ∈ hexChars ∧ '4' ∈ hexChars ∧ 'd' ∈ hexChars ∧
     '5' ∈ hexChars ∧ 'e' ∈ hexChars ∧ '6' ∈ hexChars ∧ 'f' ∈ hexChars) ∧
    ((bd_addr_str_to_addr
      ['1', 'a', ':', '2', 'b', ':', '3', 'c', ':', '4', 'd', ':',
       '5', 'e', ':', '6', 'f']).2 =
      [0, 1, 2, 3, 4, 5, 6, 7, 8, 9, 10, 11, 12, 13, 14, 15, 16, 17, 18] ∧
    ∀ i ∈ (bd_addr_str_to_addr
      ['1', 'a', ':', '2', 'b', ':', '3', 'c', ':', '4', 'd', ':',
       '5', 'e', ':', '6', 'f']).2, i ≤ 18) :=
  ⟨by decide,
   claim_C10_reads_bound '1' 'a' '2' 'b' '3' 'c' '4' 'd' '5' 'e' '6' 'f'
     (by decide) (by decide) (by decide) (by decide) (by decide) (by decide)
     (by decide) (by decide) (by decide) (by decide) (by decide) (by decide)⟩

/-! ## ScopedBtAddr (scoped_bt_addr.h / scoped_bt_addr.cpp)

The JNI environment reached through the CallbackEnv pointer is modelled as a
test double that hands out fresh numbered array handles and counts
allocations, releases and logged errors, exactly as the spec's observability
clauses ask. -/

/-- Test double for the JNI environment: allocation may be configured to
fail, handles are numbered from nextHandle, and the three counters observe
NewByteArray, DeleteLocalRef and ALOGE. The store maps live handles to their
byte contents. -/
structure CbEnv where
  allocFails : Bool
  nextHandle : Nat
  allocCount : Nat
  releaseCount : Nat
  logCount : Nat
  store : List (Nat × List Nat)
deriving Repr, DecidableEq

/-- NewByteArray(len): on success returns a fresh zero-filled array handle
and bumps the allocation counter; on failure returns no handle and leaves the
environment unchanged. -/
def newByteArray (env : CbEnv) (len : Nat) : Option Nat × CbEnv :=
  if env.allocFails then (none, env)
  else
    (some env.nextHandle,
     { env with
        nextHandle := env.nextHandle + 1,
        allocCount := env.allocCount + 1,
        store := (env.nextHandle, List.replicate len 0) :: env.store })

/-- DeleteLocalRef(h): bumps the release counter and drops the handle from
the store. -/
def deleteLocalRef (env : CbEnv) (h : Nat) : CbEnv :=
  { env with
      releaseCount := env.releaseCount + 1,
      store := env.store.filter (fun p => p.1 ≠ h) }

/-- SetByteArrayRegion(h, 0, len, bytes): overwrites the contents of handle h
in place. -/
def setByteArrayRegion (env : CbEnv) (h : Nat) (bytes : List Nat) : CbEnv :=
  { env with store := env.store.map (fun p => if p.1 = h then (p.1, bytes) else p) }

/-- ALOGE on allocation failure: bumps the log counter only. -/
def logAllocError (env : CbEnv) : CbEnv := { env with logCount := env.logCount + 1 }

/-- The data members of ScopedBtAddr that the claims observe: the held array
handle mAddr (none models the null jbyteArray). The mEnv pointer is modelled
by threading the CbEnv explicitly through each operation. -/
structure ScopedBtAddr where
  mAddr : Option Nat
deriving Repr, DecidableEq

/-- Embedding of ScopedBtAddr::reset (scoped_bt_addr.cpp, lines 29-45).
With no address: release the held handle if any and null it. With an
address: allocate a 6-byte array only when no handle is held — returning
after an error log when the allocation fails — then overwrite the array
contents with the address bytes. -/
def ScopedBtAddr.reset (s : ScopedBtAddr) (env : CbEnv) (addr : Option (List Nat)) :
    ScopedBtAddr × CbEnv :=
  match addr with
  | none =>
      match s.mAddr with
      | some h => (⟨none⟩, deleteLocalRef env h)
      | none => (s, env)
  | some a =>
      match s.mAddr with
      | some h => (s, setByteArrayRegion env h a)
      | none =>
          match newByteArray env 6 with
          | (none, env1) => (s, logAllocError env1)
          | (some h, env1) => (⟨some h⟩, setByteArrayRegion env1 h a)

/-- Embedding of the constructor (scoped_bt_addr.cpp, lines 22-25): the
initializer list sets only mEnv; the member mAddr is declared without an
initializer (scoped_bt_addr.h, line 41), so reset runs on an indeterminate
initial handle, modelled by the explicit parameter indeterminateAddr. -/
def ScopedBtAddr.construct (indeterminateAddr : Option Nat) (env : CbEnv)
    (addr : Option (List Nat)) : ScopedBtAddr × CbEnv :=
  ScopedBtAddr.reset ⟨indeterminateAddr⟩ env addr

/-- Embedding of the destructor (scoped_bt_addr.cpp, line 27): a call to
reset with no address. -/
def ScopedBtAddr.destruct (s : ScopedBtAddr) (env : CbEnv) : ScopedBtAddr × CbEnv :=
  ScopedBtAddr.reset s env none

/-- Embedding of ScopedBtAddr::get (scoped_bt_addr.cpp, line 47). -/
def ScopedBtAddr.get (s : ScopedBtAddr) : Option Nat := s.mAddr

/-- C5 as it fails on the code: the constructor leaves mAddr indeterminate,
so when the stack garbage is a non-null handle (7 here) and an address is
supplied, reset takes the handle-already-held path — no allocation happens
and the stale handle is kept — while reset on an Empty object performs a
fresh allocation and holds the fresh handle 10. The two behaviours differ,
refuting the claimed equivalence; evaluated at the failing input. -/
theorem claim_C5_uninitialized_member :
    (ScopedBtAddr.construct (some 7) ⟨false, 10, 0, 0, 0, []⟩
        (some [1, 2, 3, 4, 5, 6])).2.allocCount = 0 ∧
    (ScopedBtAddr.construct (some 7) ⟨false, 10, 0, 0, 0, []⟩
        (some [1, 2, 3, 4, 5, 6])).1.get = some 7 ∧
    (ScopedBtAddr.reset ⟨none⟩ ⟨false, 10, 0, 0, 0, []⟩
        (some [1, 2, 3, 4, 5, 6])).2.allocCount = 1 ∧
    (ScopedBtAddr.reset ⟨none⟩ ⟨false, 10, 0, 0, 0, []⟩
        (some [1, 2, 3, 4, 5, 6])).1.get = some 10 ∧
    (ScopedBtAddr.construct (some 7) ⟨false, 10, 0, 0, 0, []⟩
        (some [1, 2, 3, 4, 5, 6])) ≠
      (ScopedBtAddr.reset ⟨none⟩ ⟨false, 10, 0, 0, 0, []⟩
        (some [1, 2, 3, 4, 5, 6])) := by decide

/-- C6: starting from an object holding no buffer, reset(addr1) followed by
reset(addr2) performs exactly one allocation: the second reset keeps the
same handle, allocates nothing new and releases nothing, refilling the held
array in place. -/
theorem claim_C6_reset_reuses_allocation (env : CbEnv) (a1 a2 : List Nat)
    (hf : env.allocFails = false) :
    (ScopedBtAddr.reset (ScopedBtAddr.reset ⟨none⟩ env (some a1)).1
        (ScopedBtAddr.reset ⟨none⟩ env (some a1)).2 (some a2)).2.allocCount =
      env.allocCount + 1 ∧
    (ScopedBtAddr.reset (ScopedBtAddr.reset ⟨none⟩ env (some a1)).1
        (ScopedBtAddr.reset ⟨none⟩ env (some a1)).2 (some a2)).1.mAddr =
      (ScopedBtAddr.reset ⟨none⟩ env (some a1)).1.mAddr ∧
    (ScopedBtAddr.reset ⟨none⟩ env (some a1)).1.mAddr ≠ none ∧
    (ScopedBtAddr.reset (ScopedBtAddr.reset ⟨none⟩ env (some a1)).1
        (ScopedBtAddr.reset ⟨none⟩ env (some a1)).2 (some a2)).2.releaseCount =
      env.releaseCount ∧
    (ScopedBtAddr.reset (ScopedBtAddr.reset ⟨none⟩ env (some a1)).1
        (ScopedBtAddr.reset ⟨none⟩ env (some a1)).2 (some a2)).2.nextHandle =
      (ScopedBtAddr.reset ⟨none⟩ env (some a1)).2.nextHandle := by
  simp [ScopedBtAddr.reset, newByteArray, setByteArrayRegion, hf]

/-- Witness for C6 on a fresh non-failing environment. -/
theorem claim_C6_witness :
    ((⟨false, 0, 0, 0, 0, []⟩ : CbEnv).allocFails = false) ∧
    ((ScopedBtAddr.reset (ScopedBtAddr.reset ⟨none⟩ ⟨false, 0, 0, 0, 0, []⟩
        (some [1, 2, 3, 4, 5, 6])).1
        (ScopedBtAddr.reset ⟨none⟩ ⟨false, 0, 0, 0, 0, []⟩ (some [1, 2, 3, 4, 5, 6])).2
        (some [6, 5, 4, 3, 2, 1])).2.allocCount =
      (⟨false, 0, 0, 0, 0, []⟩ : CbEnv).allocCount + 1 ∧
    (ScopedBtAddr.reset (ScopedBtAddr.reset ⟨none⟩ ⟨false, 0, 0, 0, 0, []⟩
        (some [1, 2, 3, 4, 5, 6])).1
        (ScopedBtAddr.reset ⟨none⟩ ⟨false, 0, 0, 0, 0, []⟩ (some [1, 2, 3, 4, 5, 6])).2
        (some [6, 5, 4, 3, 2, 1])).1.mAddr =
      (ScopedBtAddr.reset ⟨none⟩ ⟨false, 0, 0, 0, 0, []⟩ (some [1, 2, 3, 4, 5, 6])).1.mAddr ∧
    (ScopedBtAddr.reset ⟨none⟩ ⟨false, 0, 0, 0, 0, []⟩ (some [1, 2, 3, 4, 5, 6])).1.mAddr ≠
      none ∧
    (ScopedBtAddr.reset (ScopedBtAddr.reset ⟨none⟩ ⟨false, 0, 0, 0, 0, []⟩
        (some [1, 2, 3, 4, 5, 6])).1
        (ScopedBtAddr.reset ⟨none⟩ ⟨false, 0, 0, 0, 0, []⟩ (some [1, 2, 3, 4, 5, 6])).2
        (some [6, 5, 4, 3, 2, 1])).2.releaseCount =
      (⟨false, 0, 0, 0, 0, []⟩ : CbEnv).releaseCount ∧
    (ScopedBtAddr.reset (ScopedBtAddr.reset ⟨none⟩ ⟨false, 0, 0, 0, 0, []⟩
        (some [1, 2, 3, 4, 5, 6])).1
        (ScopedBtAddr.reset ⟨none⟩ ⟨false, 0, 0, 0, 0, []⟩ (some [1, 2, 3, 4, 5, 6])).2
        (some [6, 5, 4, 3, 2, 1])).2.nextHandle =
      (ScopedBtAddr.reset ⟨none⟩ ⟨false, 0, 0, 0, 0, []⟩
        (some [1, 2, 3, 4, 5, 6])).2.nextHandle) :=
  ⟨rfl,
   claim_C6_reset_reuses_allocation ⟨false, 0, 0, 0, 0, []⟩
     [1, 2, 3, 4, 5, 6] [6, 5, 4, 3, 2, 1] rfl⟩

/-- C7: destroying a ScopedBtAddr that holds a buffer is literally a call to
reset with no address, and from a holding state it releases the buffer
exactly once and nulls the handle. -/
theorem claim_C7_destructor_releases (s : ScopedBtAddr) (env : CbEnv) (h : Nat)
    (hh : s.mAddr = some h) :
    ScopedBtAddr.destruct s env = ScopedBtAddr.reset s env none ∧
    (ScopedBtAddr.destruct s env).2.releaseCount = env.releaseCount + 1 ∧
    (ScopedBtAddr.destruct s env).1.mAddr = none := by
  refine ⟨rfl, ?_, ?_⟩ <;>
    simp [ScopedBtAddr.destruct, ScopedBtAddr.reset, deleteLocalRef, hh]

/-- Witness for C7 at a state holding handle 3. -/
theorem claim_C7_witness :
    ((⟨some 3⟩ : ScopedBtAddr).mAddr = some 3) ∧
    (ScopedBtAddr.destruct ⟨some 3⟩ ⟨false, 4, 1, 0, 0, [(3, [0, 0, 0, 0, 0, 0])]⟩ =
      ScopedBtAddr.reset ⟨some 3⟩ ⟨false, 4, 1, 0, 0, [(3, [0, 0, 0, 0, 0, 0])]⟩ none ∧
    (ScopedBtAddr.destruct ⟨some 3⟩
        ⟨false, 4, 1, 0, 0, [(3, [0, 0, 0, 0, 0, 0])]⟩).2.releaseCount =
      (⟨false, 4, 1, 0, 0, [(3, [0, 0, 0, 0, 0, 0])]⟩ : CbEnv).releaseCount + 1 ∧
    (ScopedBtAddr.destruct ⟨some 3⟩
        ⟨false, 4, 1, 0, 0, [(3, [0, 0, 0, 0, 0, 0])]⟩).1.mAddr = none) :=
  ⟨rfl,
   claim_C7_destructor_releases ⟨some 3⟩ ⟨false, 4, 1, 0, 0, [(3, [0, 0, 0, 0, 0, 0])]⟩ 3 rfl⟩

/-- C8: when reset(address) runs on an object holding no buffer and the
allocation fails, the failure is logged — one new log entry, and the call
returns normally with no propagated error value — the handle stays unset so
a subsequent get returns none, and the object is returned exactly in its
prior Empty state with no allocation or release performed. -/
theorem claim_C8_alloc_failure (env : CbEnv) (a : List Nat)
    (hf : env.allocFails = true) :
    ScopedBtAddr.reset ⟨none⟩ env (some a) = (⟨none⟩, logAllocError env) ∧
    (ScopedBtAddr.reset ⟨none⟩ env (some a)).1.get = none ∧
    (ScopedBtAddr.reset ⟨none⟩ env (some a)).2.logCount = env.logCount + 1 ∧
    (ScopedBtAddr.reset ⟨none⟩ env (some a)).2.allocCount = env.allocCount ∧
    (ScopedBtAddr.reset ⟨none⟩ env (some a)).2.releaseCount = env.releaseCount ∧
    (ScopedBtAddr.reset ⟨none⟩ env (some a)).2.store = env.store := by
  refine ⟨?_, ?_, ?_, ?_, ?_, ?_⟩ <;>
    simp [ScopedBtAddr.reset, ScopedBtAddr.get, newByteArray, logAllocError, hf]

/-- Witness for C8 on an environment configured to fail allocation. -/
theorem claim_C8_witness :
    ((⟨true, 0, 0, 0, 0, []⟩ : CbEnv).allocFails = true) ∧
    (ScopedBtAddr.reset ⟨none⟩ ⟨true, 0, 0, 0, 0, []⟩ (some [1, 2, 3, 4, 5, 6]) =
      (⟨none⟩, logAllocError ⟨true, 0, 0, 0, 0, []⟩) ∧
    (ScopedBtAddr.reset ⟨none⟩ ⟨true, 0, 0, 0, 0, []⟩
        (some [1, 2, 3, 4, 5, 6])).1.get = none ∧
    (ScopedBtAddr.reset ⟨none⟩ ⟨true, 0, 0, 0, 0, []⟩
        (some [1, 2, 3, 4, 5, 6])).2.logCount =
      (⟨true, 0, 0, 0, 0, []⟩ : CbEnv).logCount + 1 ∧
    (ScopedBtAddr.reset ⟨none⟩ ⟨true, 0, 0, 0, 0, []⟩
        (some [1, 2, 3, 4, 5, 6])).2.allocCount =
      (⟨true, 0, 0, 0, 0, []⟩ : CbEnv).allocCount ∧
    (ScopedBtAddr.reset ⟨none⟩ ⟨true, 0, 0, 0, 0, []⟩
        (some [1, 2, 3, 4, 5, 6])).2.releaseCount =
      (⟨true, 0, 0, 0, 0, []⟩ : CbEnv).releaseCount ∧
    (ScopedBtAddr.reset ⟨none⟩ ⟨true, 0, 0, 0, 0, []⟩
        (some [1, 2, 3, 4, 5, 6])).2.store =
      (⟨true, 0, 0, 0, 0, []⟩ : CbEnv).store) :=
  ⟨rfl, claim_C8_alloc_failure ⟨true, 0, 0, 0, 0, []⟩ [1, 2, 3, 4, 5, 6] rfl⟩

end BtJni
